import Mathlib

/-!
Verification development for the gis-toolkit repository.

The Python sources (src/config.py, src/core.py, src/graph.py, app.py) are
shallowly embedded below.  Coordinates and figure fractions are modelled as
exact rationals; matplotlib drawing calls are modelled as an explicit trace of
draw operations; Python exceptions are modelled with an explicit error
component; pandas DataFrames are modelled as lists of rows.
-/

namespace GisToolkit

/-- A geographic bounding box, as in `FigConfig.AREA_RANGE[...]["bounds"]`
(config.py): keys min_x, max_x, min_y, max_y. -/
structure Bounds where
  min_x : ℚ
  max_x : ℚ
  min_y : ℚ
  max_y : ℚ
deriving DecidableEq

/-- One entry of `FigConfig.AREA_RANGE` (config.py): display name, nesting
level, center, bounds. -/
structure AreaInfo where
  name : String
  level : Nat
  center : ℚ × ℚ
  bounds : Bounds
deriving DecidableEq

namespace FigConfig

def WIDTH : ℚ := 14.65
def HEIGHT : ℚ := 16
def DPI : Nat := 200

/-- `FigConfig.AREA_RANGE` (config.py lines 59-137), as an ordered
association list: Python dicts preserve insertion order, so the list order
is the registry's enumeration order. -/
def AREA_RANGE : List (String × AreaInfo) :=
  [ ("taiwan",
      { name := "台灣本島", level := 0, center := (120.96, 23.7),
        bounds := { min_x := 118.9, max_x := 122.6, min_y := 21.75, max_y := 25.35 } }),
    ("penghu",
      { name := "澎湖縣", level := 1, center := (119.57, 23.57),
        bounds := { min_x := 119.3, max_x := 119.74, min_y := 23.16, max_y := 23.86 } }),
    ("kinmen",
      { name := "金門縣", level := 1, center := (118.3, 24.4),
        bounds := { min_x := 118.1, max_x := 118.6, min_y := 24.34, max_y := 24.56 } }),
    ("kinmen-wuqiu",
      { name := "金門縣烏坵鄉", level := 2, center := (119.5, 24.8),
        bounds := { min_x := 119.42, max_x := 119.5, min_y := 24.96, max_y := 25.02 } }),
    ("lienchiang",
      { name := "連江縣", level := 1, center := (119.90, 26.20),
        bounds := { min_x := 119.86, max_x := 120.1, min_y := 26.12, max_y := 26.30 } }),
    ("lienchiang-dongyin",
      { name := "連江縣東引鄉", level := 2, center := (120.5, 26.3),
        bounds := { min_x := 120.45, max_x := 120.52, min_y := 26.34, max_y := 26.4 } }),
    ("lienchiang-juguang",
      { name := "連江縣莒光鄉", level := 2, center := (119.9, 25.9),
        bounds := { min_x := 119.91, max_x := 120, min_y := 25.93, max_y := 26 } }) ]

end FigConfig

/-- Bounds of a named area.  `AREA_RANGE[label]["bounds"]` in the Python
code; totalised with a harmless default for labels outside the table
(the code only ever uses keys of the table). -/
def boundsOf (label : String) : Bounds :=
  ((FigConfig.AREA_RANGE.lookup label).map AreaInfo.bounds).getD
    { min_x := 0, max_x := 1, min_y := 0, max_y := 1 }

/-- An inset axes created by `GeoPlot._inset` (core.py).  `x, y, w, h` are
the rectangle passed as `bounds=` in parent-axes fraction coordinates;
`xlim`/`ylim` are the geographic extent set from `AREA_RANGE[label]`. -/
structure Inset where
  x : ℚ
  y : ℚ
  w : ℚ
  h : ℚ
  label : String
  frame_on : Bool
  xlim : ℚ × ℚ
  ylim : ℚ × ℚ
deriving DecidableEq

/-- The figure/axes pair produced by `GeoPlot.base` (core.py): the outer
subplot axes (axis turned off, fixed xlim/ylim) and its ordered list of
child inset axes (`ax.child_axes`). -/
structure Canvas where
  figsize : ℚ × ℚ
  dpi : Nat
  axis_off : Bool
  xlim : ℚ × ℚ
  ylim : ℚ × ℚ
  child_axes : List Inset
deriving DecidableEq

/-- `GeoPlot._inset` (core.py lines 66-78): create an inset with the given
fraction rectangle and label, limits taken from `AREA_RANGE[label]`. -/
def inset (x y w h : ℚ) (label : String) (frame_on : Bool := true) : Inset :=
  let b := boundsOf label
  { x := x, y := y, w := w, h := h, label := label, frame_on := frame_on,
    xlim := (b.min_x, b.max_x), ylim := (b.min_y, b.max_y) }

/-- `GeoPlot._cal_insert_ax_height` (core.py lines 80-89):
`height = width * (max_y - min_y) / (max_x - min_x)`. -/
def cal_insert_ax_height (bounds : Bounds) (width : ℚ) : ℚ :=
  let aspect := (bounds.max_y - bounds.min_y) / (bounds.max_x - bounds.min_x)
  width * aspect

/-- `GeoPlot.base` (core.py lines 14-64), translated statement by
statement: the outer axes, then the seven insets in source order with the
same running `y`/`h` arithmetic. -/
def base : Canvas :=
  let x0 : ℚ := 0.02
  let x1 : ℚ := 0.19
  let w0 : ℚ := 0.21
  let w1 : ℚ := 0.06
  let y1 : ℚ := 0.35
  let taiwan := inset 0 0 1 1 "taiwan" false
  let h1 := cal_insert_ax_height (boundsOf "penghu") w0
  let penghu := inset x0 y1 w0 h1 "penghu"
  let y2 := y1 + h1 + 0.01
  let h2 := cal_insert_ax_height (boundsOf "kinmen") w0
  let kinmen := inset x0 y2 w0 h2 "kinmen"
  let hw := cal_insert_ax_height (boundsOf "kinmen-wuqiu") w1
  let wuqiu := inset x1 (y2 + hw - 0.02) w1 hw "kinmen-wuqiu"
  let y3 := y2 + h2 + 0.01
  let h3 := cal_insert_ax_height (boundsOf "lienchiang") w0
  let lienchiang := inset x0 y3 w0 h3 "lienchiang"
  let hd := cal_insert_ax_height (boundsOf "lienchiang-dongyin") w1
  let dongyin := inset x1 (y3 + hd - 0.03) w1 hd "lienchiang-dongyin"
  let hj := cal_insert_ax_height (boundsOf "lienchiang-juguang") w1
  let juguang := inset x1 (y3 + hj + 0.05) w1 hj "lienchiang-juguang"
  { figsize := (FigConfig.WIDTH, FigConfig.HEIGHT), dpi := FigConfig.DPI,
    axis_off := true, xlim := (118.93, 122.7), ylim := (21.5, 25.5),
    child_axes := [taiwan, penghu, kinmen, wuqiu, lienchiang, dongyin, juguang] }

/-- Bounding-box aspect ratio `(max_y - min_y) / (max_x - min_x)`. -/
def aspect (b : Bounds) : ℚ := (b.max_y - b.min_y) / (b.max_x - b.min_x)

/-- Height/width of the panel that `base` places for a given area label
(0 when no such panel exists; every registry label has one). -/
def panel_hw_of (label : String) : ℚ :=
  ((base.child_axes.find? (fun i => i.label == label)).map (fun i => i.h / i.w)).getD 0

/-- `area_list` of `GeoPlot.__init__` (core.py line 12):
`[area for area in enumerate(AREA_RANGE)]`, the indexed registry keys in
enumeration order. -/
def area_list : List (Nat × String) := (FigConfig.AREA_RANGE.map Prod.fst).enum

/-- One polygon feature of the county/town shapefile GeoDataFrames, tagged
with its administrative names (COUNTYNAME, TOWNNAME columns; the county
shapefile carries only COUNTYNAME, its townname tag is unused). -/
structure Feature where
  countyname : String
  townname : String
deriving DecidableEq

/-- One caller-supplied attribute row of the choropleth DataFrame: the
join-key columns "county" and "town" (the latter only used at town level)
plus the cell of the value column selected by `params.column`. -/
structure Row where
  county : String
  town : String
  value : ℚ
deriving DecidableEq

/-- The geometry store behind `GeoData.get_county_gpd` / `get_town_gpd`
(core.py 97-119): features of the county or town shapefile restricted to a
bounding box `(min_x, min_y, max_x, max_y)`.  The shapefiles themselves
are external read-only data, so the store is a parameter. -/
structure GeoStore where
  county : ℚ × ℚ × ℚ × ℚ → List Feature
  town : ℚ × ℚ × ℚ × ℚ → List Feature

/-- The bbox tuple `(min_x, min_y, max_x, max_y)` built from
`area_range[a]["bounds"]` in each plot loop (graph.py). -/
def bboxOf (a : String) : ℚ × ℚ × ℚ × ℚ :=
  let b := boundsOf a
  (b.min_x, b.min_y, b.max_x, b.max_y)

/-- Key equality of the join performed by `Graph.plot_choropleth`
(graph.py 221-228): left_on COUNTYNAME(, TOWNNAME), right_on
county(, town); the composite key is used exactly when level = "town". -/
def key_match (level : String) (f : Feature) (r : Row) : Bool :=
  if level = "town" then f.countyname == r.county && f.townname == r.town
  else f.countyname == r.county

/-- `GeoData.merge_gdf_and_df` (core.py 121-137): `gdf.merge(df, ...)`, a
pandas equality join with the default how="inner": each feature paired
with every row whose keys match; features without a matching row are
dropped. -/
def merge_gdf_and_df (gdf : List Feature) (df : List Row) (level : String) :
    List (Feature × Row) :=
  gdf.flatMap (fun f => (df.filter (fun r => key_match level f r)).map (fun r => (f, r)))

/-- One matplotlib drawing call, recorded with the index of the child axes
(`ax.child_axes[i]`) it is issued on. -/
inductive DrawOp
  | boundary (panel : Nat) (features : List Feature) (color : String) (linewidth : ℚ)
  | townBoundary (panel : Nat) (features : List Feature) (color : String) (linewidth : ℚ)
  | fillColumn (panel : Nat) (matched : List (Feature × Row)) (column : String) (cmap : String)
  | fillColors (panel : Nat) (colors : List String)
  | scatterPts (panel : Nat) (x y : List ℚ) (size : ℚ) (color : String) (alpha : ℚ)
  | hist2dOn (panel : Nat) (x y : List ℚ) (bins : Nat) (cmap : String) (alpha : ℚ)
      (hrange : (ℚ × ℚ) × (ℚ × ℚ)) (cmin : Nat)
  | colorbarOn (vmin vmax : Option ℚ) (cmap : String) (tick_visible : Bool)
  | legendOn
deriving DecidableEq

/-- Errors a plot call can surface.  `validationError` mirrors the spec's
ValidationError; the embedded code never constructs it, because graph.py
performs no input-shape or level validation.  `renderValueError` is the
ValueError matplotlib raises from a drawing call (scatter/hist2d with
coordinate arrays of different lengths). -/
inductive GraphError
  | validationError
  | renderValueError
deriving DecidableEq

/-- `ChoroplethParams` (graph.py 18-27).  `colorbar_format` is a pure
display format string and is omitted. -/
structure ChoroplethParams where
  data : List Row
  column : String
  level : String := "county"
  cmap : String := "GnBu"
  colorbar_tick_visible : Bool := true
deriving DecidableEq

/-- `Hist2DParams` (graph.py 30-39). -/
structure Hist2DParams where
  x : List ℚ
  y : List ℚ
  bins : Nat := 100
  cmap : String := "GnBu"
  alpha : ℚ := 0.5
  cmin : Nat := 1
deriving DecidableEq

/-- `DotParams` (graph.py 42-50). -/
structure DotParams where
  x : List ℚ
  y : List ℚ
  size : ℚ := 1
  color : String := "red"
  alpha : ℚ := 0.5
deriving DecidableEq

/-- `Graph.plot_boundary` (graph.py 107-130): for every (i, a) of
area_list, load the county features for the area's bbox and draw their
boundary on child axes i, black, linewidth 0.8.  Never raises. -/
def plot_boundary (g : GeoStore) : List DrawOp × Option GraphError :=
  (area_list.map (fun ia => .boundary ia.1 (g.county (bboxOf ia.2)) "black" 0.8), none)

/-- A per-panel drawing loop whose body may raise, as Python executes it:
the loop stops at the first exception, keeping the operations already
performed, and the exception propagates. -/
def run_panels (start : List DrawOp) (f : Nat × String → Except GraphError DrawOp) :
    List DrawOp × Option GraphError :=
  area_list.foldl
    (fun acc ia =>
      match acc.2 with
      | some _ => acc
      | none =>
        match f ia with
        | .ok op => (acc.1 ++ [op], none)
        | .error e => (acc.1, some e))
    (start, none)

/-- `Axes.scatter` as called by `Graph.plot_dot` (graph.py 332-334):
matplotlib raises ValueError when x and y differ in length, otherwise the
points are drawn. -/
def scatter_call (panel : Nat) (x y : List ℚ) (size : ℚ) (color : String) (alpha : ℚ) :
    Except GraphError DrawOp :=
  if x.length = y.length then .ok (.scatterPts panel x y size color alpha)
  else .error .renderValueError

/-- `Graph.plot_dot` (graph.py 319-336): draw the boundary substrate, then
scatter the same x/y on every panel. -/
def plot_dot (g : GeoStore) (p : DotParams) : List DrawOp × Option GraphError :=
  run_panels (plot_boundary g).1 (fun ia => scatter_call ia.1 p.x p.y p.size p.color p.alpha)

/-- The `range=` argument `plot_hist2d` passes for an area:
`[(min_x, max_x), (min_y, max_y)]` of that area's bounds (graph.py 310-313). -/
def hist_range (a : String) : (ℚ × ℚ) × (ℚ × ℚ) :=
  let b := boundsOf a
  ((b.min_x, b.max_x), (b.min_y, b.max_y))

/-- `Axes.hist2d` as called by `Graph.plot_hist2d` (graph.py 304-315):
raises ValueError on mismatched x/y lengths, otherwise bins the points
over the given range. -/
def hist2d_call (panel : Nat) (p : Hist2DParams) (r : (ℚ × ℚ) × (ℚ × ℚ)) :
    Except GraphError DrawOp :=
  if p.x.length = p.y.length then
    .ok (.hist2dOn panel p.x p.y p.bins p.cmap p.alpha r p.cmin)
  else .error .renderValueError

/-- `Graph.plot_hist2d` (graph.py 286-317): boundary substrate via
`plot_boundary`, then one hist2d per panel with that panel's range and the
shared bins/cmap/alpha/cmin. -/
def plot_hist2d (g : GeoStore) (p : Hist2DParams) : List DrawOp × Option GraphError :=
  run_panels (plot_boundary g).1 (fun ia => hist2d_call ia.1 p (hist_range ia.2))

/-- `pandas.Series.min` over the value column: minimum of the list, `none`
for an empty column. -/
def colMin : List ℚ → Option ℚ
  | [] => none
  | x :: xs =>
    some (match colMin xs with
          | none => x
          | some m => min x m)

/-- `pandas.Series.max` over the value column: maximum of the list, `none`
for an empty column. -/
def colMax : List ℚ → Option ℚ
  | [] => none
  | x :: xs =>
    some (match colMax xs with
          | none => x
          | some m => max x m)

/-- The geometry query of `plot_choropleth` (graph.py 216-219): town
features when level = "town", county features otherwise. -/
def level_gdf (g : GeoStore) (level : String) (bbox : ℚ × ℚ × ℚ × ℚ) : List Feature :=
  if level = "town" then g.town bbox else g.county bbox

/-- The body of the per-panel loop of `Graph.plot_choropleth`
(graph.py 209-238): join, then on an empty join draw the county boundary
only and continue; otherwise fill the merged features by the value column
and draw the county boundary on top. -/
def choro_panel_ops (g : GeoStore) (p : ChoroplethParams) (i : Nat) (a : String) :
    List DrawOp :=
  let bbox := bboxOf a
  let gdf := level_gdf g p.level bbox
  let merged := merge_gdf_and_df gdf p.data p.level
  if merged.isEmpty then
    [.boundary i (g.county bbox) "black" 0.8]
  else
    [.fillColumn i merged p.column p.cmap, .boundary i (g.county bbox) "black" 0.8]

/-- `Graph.plot_choropleth` (graph.py 191-249): the per-panel loop over
area_list followed by the single `_colorbar` call over
`params.data[params.column].min()` / `.max()`.  Never raises. -/
def plot_choropleth (g : GeoStore) (p : ChoroplethParams) :
    List DrawOp × Option GraphError :=
  (area_list.flatMap (fun ia => choro_panel_ops g p ia.1 ia.2) ++
    [.colorbarOn (colMin (p.data.map Row.value)) (colMax (p.data.map Row.value))
      p.cmap p.colorbar_tick_visible],
   none)

/-- The fixed category → color table of `plot_boundary_with_subsidy`
(graph.py 145-150). -/
def colormap : List (String × String) :=
  [("山地原民區", "#477160"), ("平地原民區", "#A8D8B9"),
   ("偏遠地區", "#FFC145"), ("離島地區", "#90C2E7")]

/-- The "town_type" column (graph.py 162-165):
`town_type.get(COUNTYNAME + TOWNNAME)`, `none` when the concatenated name
is absent from the classification map. -/
def town_type_of (town_type : List (String × String)) (f : Feature) : Option String :=
  town_type.lookup (f.countyname ++ f.townname)

/-- The "color" column (graph.py 166-168): `colormap.get(x, "#ffffff00")`
applied to the town_type cell; a missing key (including the `None` cell of
an unclassified town) yields the fully transparent "#ffffff00". -/
def town_color (town_type : List (String × String)) (f : Feature) : String :=
  match town_type_of town_type f with
  | none => "#ffffff00"
  | some t => (colormap.lookup t).getD "#ffffff00"

/-- `Graph.plot_boundary_with_subsidy` (graph.py 132-189): per panel the
county boundary, the town boundary, and the town fill colored by
`town_color`; then the fixed-category legend.  The classification map is
external JSON data, so it is a parameter. -/
def plot_boundary_with_subsidy (g : GeoStore) (town_type : List (String × String)) :
    List DrawOp × Option GraphError :=
  (area_list.flatMap (fun ia =>
      let bbox := bboxOf ia.2
      [.boundary ia.1 (g.county bbox) "black" 0.8,
       .townBoundary ia.1 (g.town bbox) "gray" 0.5,
       .fillColors ia.1 ((g.town bbox).map (town_color town_type))]) ++
    [.legendOn],
   none)

/-- Which steps of one request raise, to exercise every exit path of
`handle_plot_request` (app.py): `plot_raises` - the plot function raises
after `base()` has allocated its figure (the worst case: a failure before
allocation leaves nothing to release); `savefig_raises` - encoding raises
inside `fig_to_image`. -/
structure Fault where
  plot_raises : Bool
  savefig_raises : Bool

/-- The process state relevant to resource lifetime: the number of live
matplotlib figures and the module-global `request_counter` (app.py 13-15). -/
structure AppState where
  openFigs : Nat
  request_counter : Nat
deriving DecidableEq

/-- `CLEANUP_INTERVAL` (app.py line 15). -/
def CLEANUP_INTERVAL : Nat := 50

/-- `Graph.cleanup_memory` (graph.py 96-105): `plt.close("all")` closes
every live figure. -/
def cleanup_memory (st : AppState) : AppState := { st with openFigs := 0 }

/-- `cleanup_memory_if_needed` (app.py 120-128): bump the counter; at the
interval close all figures and reset the counter. -/
def cleanup_memory_if_needed (st : AppState) : AppState :=
  let c := st.request_counter + 1
  if CLEANUP_INTERVAL ≤ c then { openFigs := 0, request_counter := 0 }
  else { st with request_counter := c }

/-- A `graph_instance.plot_*` call: allocates one figure via
`GeoPlot.base`, then returns it or raises with the figure still open. -/
def plot_call (raises : Bool) (st : AppState) : AppState × Bool :=
  ({ st with openFigs := st.openFigs + 1 }, !raises)

/-- `fig_to_image` (app.py 107-117): `savefig` may raise; the finally
block closes the figure on both paths, so the open count drops either way. -/
def fig_to_image (raises : Bool) (st : AppState) : AppState × Bool :=
  ({ st with openFigs := st.openFigs - 1 }, !raises)

/-- `handle_plot_request` (app.py 131-141).  The Bool is request success;
on any exception `graph_instance.cleanup_memory()` runs before the
HTTP 500 propagates. -/
def handle_plot_request (f : Fault) (st : AppState) : AppState × Bool :=
  let st1 := cleanup_memory_if_needed st
  let pr := plot_call f.plot_raises st1
  if pr.2 then
    let enc := fig_to_image f.savefig_raises pr.1
    if enc.2 then (enc.1, true) else (cleanup_memory enc.1, false)
  else (cleanup_memory pr.1, false)

/-- The app state at each completion point of a sequence of requests. -/
def completionStates : List Fault → AppState → List AppState
  | [], _ => []
  | f :: fs, st =>
    let st1 := (handle_plot_request f st).1
    st1 :: completionStates fs st1

/-- The merged GeoDataFrame `plot_choropleth` computes for one panel. -/
def choro_merged (g : GeoStore) (p : ChoroplethParams) (a : String) : List (Feature × Row) :=
  merge_gdf_and_df (level_gdf g p.level (bboxOf a)) p.data p.level

/-- Whether a drawing call is the colorbar/legend call of `_colorbar`. -/
def isColorbar : DrawOp → Bool
  | .colorbarOn _ _ _ _ => true
  | _ => false

/-- A one-feature geometry store used as concrete test data. -/
def sampleStore : GeoStore :=
  { county := fun _ => [{ countyname := "臺北市", townname := "中正區" }],
    town := fun _ => [{ countyname := "臺北市", townname := "中正區" }] }

/-- `plot_dot` input with x of length 3 and y of length 2. -/
def mismatchDot : DotParams :=
  { x := [121.5, 120.2, 120.7], y := [25.0, 23.0], size := 10, color := "red", alpha := 0.5 }

/-- `plot_choropleth` input whose level is neither "county" nor "town". -/
def villageParams : ChoroplethParams :=
  { data := [{ county := "臺北市", town := "", value := 10 }],
    column := "value", level := "village" }

/-- A sample attribute row matching the sample store's feature. -/
def rowA : Row := { county := "臺北市", town := "", value := 10 }

/-- A sample attribute row matching no feature of the sample store. -/
def rowB : Row := { county := "新北市", town := "", value := 20 }

/-- County-level choropleth input with two rows. -/
def permParams : ChoroplethParams := { data := [rowA, rowB], column := "value" }

/-- County-level choropleth input whose single row matches no feature of
the sample store. -/
def missParams : ChoroplethParams := { data := [rowB], column := "value" }

/-- County-level choropleth input whose single row matches the sample
store's feature. -/
def hitParams : ChoroplethParams := { data := [rowA], column := "value" }

/-- Hist2D input with one point. -/
def sampleHist : Hist2DParams := { x := [121.5], y := [25.0] }

/-- A sample classification map holding one town. -/
def sampleTT : List (String × String) := [("臺北市中正區", "山地原民區")]

lemma find_taiwan : base.child_axes.find? (fun i => i.label == "taiwan")
    = some (inset 0 0 1 1 "taiwan" false) := rfl

lemma find_penghu : base.child_axes.find? (fun i => i.label == "penghu")
    = some (inset 0.02 0.35 0.21 (cal_insert_ax_height (boundsOf "penghu") 0.21) "penghu") := rfl

lemma find_kinmen : base.child_axes.find? (fun i => i.label == "kinmen")
    = some (inset 0.02 (0.35 + cal_insert_ax_height (boundsOf "penghu") 0.21 + 0.01) 0.21
        (cal_insert_ax_height (boundsOf "kinmen") 0.21) "kinmen") := rfl

lemma find_wuqiu : base.child_axes.find? (fun i => i.label == "kinmen-wuqiu")
    = some (inset 0.19
        (0.35 + cal_insert_ax_height (boundsOf "penghu") 0.21 + 0.01 +
          cal_insert_ax_height (boundsOf "kinmen-wuqiu") 0.06 - 0.02) 0.06
        (cal_insert_ax_height (boundsOf "kinmen-wuqiu") 0.06) "kinmen-wuqiu") := rfl

lemma find_lienchiang : base.child_axes.find? (fun i => i.label == "lienchiang")
    = some (inset 0.02
        (0.35 + cal_insert_ax_height (boundsOf "penghu") 0.21 + 0.01 +
          cal_insert_ax_height (boundsOf "kinmen") 0.21 + 0.01) 0.21
        (cal_insert_ax_height (boundsOf "lienchiang") 0.21) "lienchiang") := rfl

lemma find_dongyin : base.child_axes.find? (fun i => i.label == "lienchiang-dongyin")
    = some (inset 0.19
        (0.35 + cal_insert_ax_height (boundsOf "penghu") 0.21 + 0.01 +
          cal_insert_ax_height (boundsOf "kinmen") 0.21 + 0.01 +
          cal_insert_ax_height (boundsOf "lienchiang-dongyin") 0.06 - 0.03) 0.06
        (cal_insert_ax_height (boundsOf "lienchiang-dongyin") 0.06) "lienchiang-dongyin") := rfl

lemma find_juguang : base.child_axes.find? (fun i => i.label == "lienchiang-juguang")
    = some (inset 0.19
        (0.35 + cal_insert_ax_height (boundsOf "penghu") 0.21 + 0.01 +
          cal_insert_ax_height (boundsOf "kinmen") 0.21 + 0.01 +
          cal_insert_ax_height (boundsOf "lienchiang-juguang") 0.06 + 0.05) 0.06
        (cal_insert_ax_height (boundsOf "lienchiang-juguang") 0.06) "lienchiang-juguang") := rfl

lemma boundsOf_eval :
    boundsOf "taiwan" = { min_x := 118.9, max_x := 122.6, min_y := 21.75, max_y := 25.35 } ∧
    boundsOf "penghu" = { min_x := 119.3, max_x := 119.74, min_y := 23.16, max_y := 23.86 } ∧
    boundsOf "kinmen" = { min_x := 118.1, max_x := 118.6, min_y := 24.34, max_y := 24.56 } ∧
    boundsOf "kinmen-wuqiu" = { min_x := 119.42, max_x := 119.5, min_y := 24.96, max_y := 25.02 } ∧
    boundsOf "lienchiang" = { min_x := 119.86, max_x := 120.1, min_y := 26.12, max_y := 26.30 } ∧
    boundsOf "lienchiang-dongyin" = { min_x := 120.45, max_x := 120.52, min_y := 26.34, max_y := 26.4 } ∧
    boundsOf "lienchiang-juguang" = { min_x := 119.91, max_x := 120, min_y := 25.93, max_y := 26 } :=
  ⟨rfl, rfl, rfl, rfl, rfl, rfl, rfl⟩

end GisToolkit

namespace GisToolkit

/-- Claim C1: `GeoPlot.base` yields, for the `AREA_RANGE` registry of size
`n`, exactly `n + 1` panels: the frameless outer axes covering the full
configured extent plus one nested inset per registry entry, and the inset
list (`ax.child_axes`) carries the registry's labels in the registry's
enumeration order, so panel index `i` denotes region `i` for every later
overlay call. -/
theorem base_panel_count_and_order :
    1 + base.child_axes.length = FigConfig.AREA_RANGE.length + 1 ∧
    base.axis_off = true ∧
    base.xlim = (118.93, 122.7) ∧ base.ylim = (21.5, 25.5) ∧
    base.child_axes.map Inset.label = FigConfig.AREA_RANGE.map Prod.fst :=
  ⟨rfl, rfl, rfl, rfl, rfl⟩

/-- Claim C2, counterexample: the registry's first entry is the region
"taiwan", whose panel is the full-canvas inset with height/width ratio 1,
while its bounding box has aspect ratio
(25.35 - 21.75) / (122.6 - 118.9) = 36/37; the two differ by 1/37, far
beyond floating-point tolerance, so the claim fails for that region. -/
theorem taiwan_panel_aspect_counterexample :
    (FigConfig.AREA_RANGE.map Prod.fst).head? = some "taiwan" ∧
    panel_hw_of "taiwan" = 1 ∧
    aspect (boundsOf "taiwan") = 36 / 37 ∧
    panel_hw_of "taiwan" ≠ aspect (boundsOf "taiwan") := by
  refine ⟨rfl, ?_, ?_, ?_⟩
  · rw [panel_hw_of, find_taiwan]; norm_num [inset]
  · norm_num [aspect, boundsOf_eval.1]
  · rw [panel_hw_of, find_taiwan]; norm_num [inset, aspect, boundsOf_eval.1]

/-- Claim C2, amended: for every region of the registry at nesting level 1
or 2 (every region except the top-level "taiwan" entry, whose panel is the
fixed full-canvas inset), the panel placed by `GeoPlot.base` has
height/width ratio exactly equal to the region's bounding-box aspect ratio
(max_y - min_y) / (max_x - min_x). -/
theorem panel_aspect_matches_bbox :
    ∀ p ∈ FigConfig.AREA_RANGE, 1 ≤ p.2.level →
      panel_hw_of p.1 = aspect p.2.bounds := by
  intro p hp h1
  fin_cases hp
  · exact absurd h1 (by norm_num)
  · rw [panel_hw_of, find_penghu]
    norm_num [inset, cal_insert_ax_height, aspect, boundsOf_eval.2.1]
  · rw [panel_hw_of, find_kinmen]
    norm_num [inset, cal_insert_ax_height, aspect, boundsOf_eval.2.2.1]
  · rw [panel_hw_of, find_wuqiu]
    norm_num [inset, cal_insert_ax_height, aspect, boundsOf_eval.2.2.2.1]
  · rw [panel_hw_of, find_lienchiang]
    norm_num [inset, cal_insert_ax_height, aspect, boundsOf_eval.2.2.2.2.1]
  · rw [panel_hw_of, find_dongyin]
    norm_num [inset, cal_insert_ax_height, aspect, boundsOf_eval.2.2.2.2.2.1]
  · rw [panel_hw_of, find_juguang]
    norm_num [inset, cal_insert_ax_height, aspect, boundsOf_eval.2.2.2.2.2.2]

/-- Witness for `panel_aspect_matches_bbox` at the concrete region
"penghu". -/
theorem panel_aspect_matches_bbox_witness :
    panel_hw_of "penghu" =
      aspect { min_x := 119.3, max_x := 119.74, min_y := 23.16, max_y := 23.86 } :=
  panel_aspect_matches_bbox
    ("penghu",
      { name := "澎湖縣", level := 1, center := (119.57, 23.57),
        bounds := { min_x := 119.3, max_x := 119.74, min_y := 23.16, max_y := 23.86 } })
    (by simp [FigConfig.AREA_RANGE]) (by norm_num)

end GisToolkit

namespace GisToolkit

lemma area_list_eq : area_list =
    [(0, "taiwan"), (1, "penghu"), (2, "kinmen"), (3, "kinmen-wuqiu"),
     (4, "lienchiang"), (5, "lienchiang-dongyin"), (6, "lienchiang-juguang")] := rfl

lemma mem_merge {gdf : List Feature} {df : List Row} {level : String} {f : Feature} {r : Row} :
    (f, r) ∈ merge_gdf_and_df gdf df level ↔
      f ∈ gdf ∧ r ∈ df ∧ key_match level f r = true := by
  simp only [merge_gdf_and_df, List.mem_flatMap, List.mem_map, List.mem_filter,
    Prod.mk.injEq]
  constructor
  · rintro ⟨a, ha, b, ⟨hb, hk⟩, rfl, rfl⟩
    exact ⟨ha, hb, hk⟩
  · rintro ⟨ha, hb, hk⟩
    exact ⟨f, ha, r, ⟨hb, hk⟩, rfl, rfl⟩

lemma colMin_perm : ∀ {l l' : List ℚ}, l.Perm l' → colMin l = colMin l' := by
  intro l l' h
  induction h with
  | nil => rfl
  | cons x _ ih => simp [colMin, ih]
  | swap x y l =>
    simp only [colMin]
    cases hm : colMin l with
    | none => simp [min_comm]
    | some m => simp [min_left_comm]
  | trans _ _ ih1 ih2 => exact ih1.trans ih2

lemma colMax_perm : ∀ {l l' : List ℚ}, l.Perm l' → colMax l = colMax l' := by
  intro l l' h
  induction h with
  | nil => rfl
  | cons x _ ih => simp [colMax, ih]
  | swap x y l =>
    simp only [colMax]
    cases hm : colMax l with
    | none => simp [max_comm]
    | some m => simp [max_left_comm]
  | trans _ _ ih1 ih2 => exact ih1.trans ih2

lemma choro_panel_ops_not_colorbar {g p i a op} (h : op ∈ choro_panel_ops g p i a) :
    isColorbar op = false := by
  simp only [choro_panel_ops] at h
  split at h <;> rcases List.mem_cons.mp h with rfl | h2 <;>
    first
      | rfl
      | (rcases List.mem_cons.mp h2 with rfl | h3
         · rfl
         · exact absurd h3 (List.not_mem_nil _))
      | exact absurd h2 (List.not_mem_nil _)

lemma handle_plot_request_openFigs (f : Fault) (st : AppState) (h : st.openFigs = 0) :
    ((handle_plot_request f st).1).openFigs = 0 := by
  rcases f with ⟨pr, sr⟩
  cases pr <;> cases sr <;>
    (simp [handle_plot_request, cleanup_memory_if_needed, plot_call, fig_to_image,
       cleanup_memory]
     try (split <;> simp [h]))

/-- Claim C3: every request handled by `handle_plot_request` releases the
figure it created on every exit path - on success `fig_to_image` closes it
after encoding, and when the plot function or the encoding raises,
`cleanup_memory` closes everything before the error propagates - so over
any sequence of requests, starting with no open figures, every completion
point has zero (hence at most one) live figures, whatever steps fail. -/
theorem render_releases_canvas :
    ∀ (fs : List Fault) (st : AppState), st.openFigs = 0 →
      ∀ s ∈ completionStates fs st, s.openFigs = 0 ∧ s.openFigs ≤ 1 := by
  intro fs
  induction fs with
  | nil => intro st h s hs; simp [completionStates] at hs
  | cons f fs ih =>
    intro st h s hs
    simp only [completionStates, List.mem_cons] at hs
    rcases hs with rfl | hs
    · exact ⟨handle_plot_request_openFigs f st h, by
        rw [handle_plot_request_openFigs f st h]; omega⟩
    · exact ih _ (handle_plot_request_openFigs f st h) s hs

/-- Witness for `render_releases_canvas`: one request whose plot call
raises, starting from a fresh state, ends with zero open figures. -/
theorem render_releases_canvas_witness :
    ((handle_plot_request { plot_raises := true, savefig_raises := false }
        { openFigs := 0, request_counter := 0 }).1).openFigs = 0 ∧
    ((handle_plot_request { plot_raises := true, savefig_raises := false }
        { openFigs := 0, request_counter := 0 }).1).openFigs ≤ 1 :=
  render_releases_canvas [{ plot_raises := true, savefig_raises := false }]
    { openFigs := 0, request_counter := 0 } rfl _ (List.mem_singleton.mpr rfl)

/-- Claim C4: a panel whose attribute join yields zero rows is rendered
boundary-only - exactly the county boundary outline, no fill - and
`plot_choropleth` surfaces no error: the empty join is recovered by the
`continue` branch locally. -/
theorem choropleth_empty_join_boundary_only :
    ∀ (g : GeoStore) (p : ChoroplethParams) (i : Nat) (a : String),
      (i, a) ∈ area_list → choro_merged g p a = [] →
        choro_panel_ops g p i a = [.boundary i (g.county (bboxOf a)) "black" 0.8] ∧
        (plot_choropleth g p).2 = none := by
  intro g p i a _ hm
  rw [choro_merged] at hm
  exact ⟨by simp [choro_panel_ops, hm], rfl⟩

/-- Witness for `choropleth_empty_join_boundary_only`: a row matching no
feature of the sample store leaves the "taiwan" panel boundary-only. -/
theorem choropleth_empty_join_boundary_only_witness :
    choro_panel_ops sampleStore missParams 0 "taiwan" =
      [.boundary 0 (sampleStore.county (bboxOf "taiwan")) "black" 0.8] ∧
    (plot_choropleth sampleStore missParams).2 = none :=
  choropleth_empty_join_boundary_only sampleStore missParams 0 "taiwan"
    (by simp [area_list_eq]) rfl

/-- Claim C5: the color scale of a choropleth render is the single
colorbar drawn after all panels, computed as the minimum and maximum of
the whole value column over all supplied rows (never per panel - the
colorbar does not depend on the geometry store), and it is
order-independent: permuting the rows leaves it unchanged. -/
theorem choropleth_color_scale_global :
    ∀ (g g' : GeoStore) (p : ChoroplethParams) (d' : List Row), p.data.Perm d' →
      (plot_choropleth g p).1.getLast? =
        some (.colorbarOn (colMin (p.data.map Row.value)) (colMax (p.data.map Row.value))
          p.cmap p.colorbar_tick_visible) ∧
      ((plot_choropleth g p).1.filter isColorbar).length = 1 ∧
      (plot_choropleth g' { p with data := d' }).1.getLast? =
        (plot_choropleth g p).1.getLast? := by
  intro g g' p d' hperm
  refine ⟨?_, ?_, ?_⟩
  · simp [plot_choropleth]
  · rw [plot_choropleth, List.filter_append]
    rw [List.filter_eq_nil_iff.mpr
      (fun op hop => by
        rcases List.mem_flatMap.mp hop with ⟨ia, _, hmem⟩
        simp [choro_panel_ops_not_colorbar hmem])]
    rfl
  · have hv : (p.data.map Row.value).Perm (d'.map Row.value) := hperm.map Row.value
    simp [plot_choropleth, colMin_perm hv, colMax_perm hv]

/-- Witness for `choropleth_color_scale_global`: two concrete rows and
their transposition, on the sample store. -/
theorem choropleth_color_scale_global_witness :
    (plot_choropleth sampleStore permParams).1.getLast? =
      some (.colorbarOn (colMin (permParams.data.map Row.value))
        (colMax (permParams.data.map Row.value)) permParams.cmap
        permParams.colorbar_tick_visible) ∧
    (plot_choropleth sampleStore { permParams with data := [rowB, rowA] }).1.getLast? =
      (plot_choropleth sampleStore permParams).1.getLast? :=
  ⟨(choropleth_color_scale_global sampleStore sampleStore permParams [rowB, rowA]
      (List.Perm.swap rowB rowA [])).1,
   (choropleth_color_scale_global sampleStore sampleStore permParams [rowB, rowA]
      (List.Perm.swap rowB rowA [])).2.2⟩

/-- Claim C6, counterexample: `plot_dot` on x of length 3 and y of length
2 over the sample store does not fail with a ValidationError before
drawing; it raises the scatter ValueError after the entire boundary
substrate - seven drawing operations - has already been drawn. -/
theorem plot_dot_mismatch_counterexample :
    (plot_dot sampleStore mismatchDot).2 = some GraphError.renderValueError ∧
    (plot_dot sampleStore mismatchDot).2 ≠ some GraphError.validationError ∧
    (plot_dot sampleStore mismatchDot).1 = (plot_boundary sampleStore).1 ∧
    (plot_dot sampleStore mismatchDot).1.length = 7 := by
  refine ⟨rfl, ?_, rfl, rfl⟩
  intro hc
  rw [(rfl : (plot_dot sampleStore mismatchDot).2 = some GraphError.renderValueError)] at hc
  exact GraphError.noConfusion (Option.some.inj hc)

/-- Claim C6, amended: `plot_dot` with coordinate arrays of different
lengths performs no validation; the boundary substrate for all panels is
drawn first, and the failure is the ValueError matplotlib raises from the
first scatter call, surfaced mid-render (then mapped to a 500 by the
request handler). -/
theorem plot_dot_mismatch_fails_midrender :
    ∀ (g : GeoStore) (p : DotParams), p.x.length ≠ p.y.length →
      (plot_dot g p).2 = some GraphError.renderValueError ∧
      (plot_dot g p).1 = (plot_boundary g).1 := by
  intro g p h
  constructor <;>
    simp [plot_dot, run_panels, area_list_eq, scatter_call, h, plot_boundary]

/-- Witness for `plot_dot_mismatch_fails_midrender` at x length 3, y
length 2. -/
theorem plot_dot_mismatch_fails_midrender_witness :
    (plot_dot sampleStore mismatchDot).2 = some GraphError.renderValueError ∧
    (plot_dot sampleStore mismatchDot).1 = (plot_boundary sampleStore).1 :=
  plot_dot_mismatch_fails_midrender sampleStore mismatchDot (by decide)

/-- Claim C7, counterexample: `plot_choropleth` with level "village"
raises no error at all - it renders normally, producing the same drawing
operations as level "county". -/
theorem choropleth_unknown_level_counterexample :
    (plot_choropleth sampleStore villageParams).2 = none ∧
    (plot_choropleth sampleStore villageParams).1 ≠ [] ∧
    (plot_choropleth sampleStore villageParams).1 =
      (plot_choropleth sampleStore { villageParams with level := "county" }).1 := by
  refine ⟨rfl, ?_, rfl⟩
  intro hc
  exact absurd (congrArg List.length hc) (by norm_num [plot_choropleth])

/-- Claim C7, amended: a geometry level other than "town" is silently
treated as "county" - the render is identical to a county-level render
and no error is surfaced; there is no level validation. -/
theorem choropleth_unknown_level_treated_as_county :
    ∀ (g : GeoStore) (p : ChoroplethParams), p.level ≠ "town" →
      plot_choropleth g p = plot_choropleth g { p with level := "county" } ∧
      (plot_choropleth g p).2 = none := by
  intro g p h
  refine ⟨?_, rfl⟩
  simp [plot_choropleth, choro_panel_ops, level_gdf, merge_gdf_and_df, key_match, h]

/-- Witness for `choropleth_unknown_level_treated_as_county` at level
"village". -/
theorem choropleth_unknown_level_treated_as_county_witness :
    plot_choropleth sampleStore villageParams =
      plot_choropleth sampleStore { villageParams with level := "county" } ∧
    (plot_choropleth sampleStore villageParams).2 = none :=
  choropleth_unknown_level_treated_as_county sampleStore villageParams (by decide)

/-- Claim C8: on a panel whose join is partial or full, the panel's
operations are exactly the fill of the merged (matched) features by the
value column under the shared colormap followed by the county boundary;
every pair in the merged list is a feature of the panel's geometry paired
with a row its keys match, a feature matching no row appears in no fill
pair, and the county boundary operation is drawn on the panel in both the
empty and the non-empty case. -/
theorem choropleth_nonempty_join_fill :
    ∀ (g : GeoStore) (p : ChoroplethParams) (i : Nat) (a : String),
      (i, a) ∈ area_list →
        (choro_merged g p a ≠ [] →
          choro_panel_ops g p i a =
            [.fillColumn i (choro_merged g p a) p.column p.cmap,
             .boundary i (g.county (bboxOf a)) "black" 0.8]) ∧
        (∀ f r, (f, r) ∈ choro_merged g p a →
          f ∈ level_gdf g p.level (bboxOf a) ∧ r ∈ p.data ∧ key_match p.level f r = true) ∧
        (∀ f, (∀ r ∈ p.data, key_match p.level f r = false) →
          ∀ r, (f, r) ∉ choro_merged g p a) ∧
        DrawOp.boundary i (g.county (bboxOf a)) "black" 0.8 ∈ choro_panel_ops g p i a := by
  intro g p i a _
  refine ⟨?_, ?_, ?_, ?_⟩
  · intro hm
    rw [choro_merged] at hm
    simp [choro_panel_ops, hm, choro_merged]
  · intro f r hfr
    exact mem_merge.mp (by rwa [choro_merged] at hfr)
  · intro f hf r hfr
    rw [choro_merged] at hfr
    have := mem_merge.mp hfr
    exact absurd this.2.2 (by simp [hf r this.2.1])
  · by_cases hm : merge_gdf_and_df (level_gdf g p.level (bboxOf a)) p.data p.level = [] <;>
      simp [choro_panel_ops, hm]

/-- Witness for `choropleth_nonempty_join_fill`: a matching row fills the
"taiwan" panel and the county boundary is drawn over it. -/
theorem choropleth_nonempty_join_fill_witness :
    choro_panel_ops sampleStore hitParams 0 "taiwan" =
      [.fillColumn 0 (choro_merged sampleStore hitParams "taiwan")
        hitParams.column hitParams.cmap,
       .boundary 0 (sampleStore.county (bboxOf "taiwan")) "black" 0.8] ∧
    DrawOp.boundary 0 (sampleStore.county (bboxOf "taiwan")) "black" 0.8 ∈
      choro_panel_ops sampleStore hitParams 0 "taiwan" :=
  ⟨(choropleth_nonempty_join_fill sampleStore hitParams 0 "taiwan"
      (by simp [area_list_eq])).1
    (fun hc => absurd (congrArg List.length hc) (by decide)),
   (choropleth_nonempty_join_fill sampleStore hitParams 0 "taiwan"
      (by simp [area_list_eq])).2.2.2⟩

/-- Claim C9: `plot_hist2d` draws the boundary substrate and then, for
panel i, one hist2d whose spatial range is exactly that panel's region
bounds ((min_x, max_x), (min_y, max_y)), while bins, colormap, alpha and
the minimum-count threshold are the same request-level parameters on every
panel; no error is surfaced. -/
theorem hist2d_panel_range :
    ∀ (g : GeoStore) (p : Hist2DParams), p.x.length = p.y.length →
      (plot_hist2d g p).1 =
        (plot_boundary g).1 ++
          area_list.map (fun ia =>
            .hist2dOn ia.1 p.x p.y p.bins p.cmap p.alpha
              (((boundsOf ia.2).min_x, (boundsOf ia.2).max_x),
               ((boundsOf ia.2).min_y, (boundsOf ia.2).max_y)) p.cmin) ∧
      (plot_hist2d g p).2 = none := by
  intro g p h
  constructor <;>
    simp [plot_hist2d, run_panels, area_list_eq, hist2d_call, h, hist_range, plot_boundary]

/-- Witness for `hist2d_panel_range` at a one-point input. -/
theorem hist2d_panel_range_witness :
    (plot_hist2d sampleStore sampleHist).1 =
      (plot_boundary sampleStore).1 ++
        area_list.map (fun ia =>
          .hist2dOn ia.1 sampleHist.x sampleHist.y sampleHist.bins sampleHist.cmap
            sampleHist.alpha
            (((boundsOf ia.2).min_x, (boundsOf ia.2).max_x),
             ((boundsOf ia.2).min_y, (boundsOf ia.2).max_y)) sampleHist.cmin) ∧
    (plot_hist2d sampleStore sampleHist).2 = none :=
  hist2d_panel_range sampleStore sampleHist rfl

/-- Claim C10: `plot_boundary_with_subsidy` fills each panel's towns by
`town_color`; a town whose concatenated county+town name is absent from
the classification map, or whose category is missing from the fixed
category-to-color table, is filled with the fully transparent "#ffffff00",
and a classified town is filled with its table color. -/
theorem subsidy_unclassified_towns_transparent :
    ∀ (g : GeoStore) (tt : List (String × String)) (ia : Nat × String), ia ∈ area_list →
      DrawOp.fillColors ia.1 ((g.town (bboxOf ia.2)).map (town_color tt)) ∈
        (plot_boundary_with_subsidy g tt).1 ∧
      (∀ f : Feature, town_type_of tt f = none → town_color tt f = "#ffffff00") ∧
      (∀ f t, town_type_of tt f = some t → colormap.lookup t = none →
        town_color tt f = "#ffffff00") ∧
      (∀ f t c, town_type_of tt f = some t → colormap.lookup t = some c →
        town_color tt f = c) := by
  intro g tt ia hia
  refine ⟨?_, ?_, ?_, ?_⟩
  · rw [plot_boundary_with_subsidy]
    refine List.mem_append_left _ (List.mem_flatMap.mpr ⟨ia, hia, ?_⟩)
    simp
  · intro f hf; simp [town_color, hf]
  · intro f t hf hc; simp [town_color, hf, hc]
  · intro f t c hf hc; simp [town_color, hf, hc]

/-- Witness for `subsidy_unclassified_towns_transparent`: the sample
classification map colors the sample town by the table, and the fill
operation appears on the "taiwan" panel. -/
theorem subsidy_unclassified_towns_transparent_witness :
    DrawOp.fillColors 0 ((sampleStore.town (bboxOf "taiwan")).map (town_color sampleTT)) ∈
      (plot_boundary_with_subsidy sampleStore sampleTT).1 ∧
    town_color sampleTT { countyname := "臺北市", townname := "中正區" } = "#477160" :=
  ⟨(subsidy_unclassified_towns_transparent sampleStore sampleTT (0, "taiwan")
      (by simp [area_list_eq])).1,
   (subsidy_unclassified_towns_transparent sampleStore sampleTT (0, "taiwan")
      (by simp [area_list_eq])).2.2.2
     { countyname := "臺北市", townname := "中正區" } "山地原民區" "#477160" rfl rfl⟩

end GisToolkit
